import Mathlib

/-!
Shallow embedding of the NetPulse network monitor
(`src/monitor/netpulse_monitor.py`, with the legacy variant
`src/existing python script/isp_monitor.py` where a claim cites it).

Modelling conventions:
* Time is `Int` seconds (the source's `datetime` values; `total_seconds()`
  differences become integer subtraction).  `dateOf` models `DATE(...)` /
  `datetime.date()` as floor-division by 86400.
* Latencies are `ℚ` (Python floats carrying exact small decimals).
* The SQLite tables become Lean lists inside a `DB` structure; AUTOINCREMENT
  becomes the `nextIncidentId` counter.
* External effects (the `ping3.ping` call, the SMTP send) are inputs to the
  step functions: `PingOutcome` is what the raw ping did, and a `Bool`
  oracle says whether an attempted email send succeeds.
-/

namespace NetPulse

/-- Outcome of the raw `ping3.ping` call: a measured round-trip time in
seconds, a timeout (`ping3` returns `None`), or a raised exception. -/
inductive PingOutcome where
  | value (seconds : ℚ)
  | timeout
  | errored
  deriving DecidableEq, Repr

/-- `ping_target` from `netpulse_monitor.py` (lines 240-247):
`return latency * 1000 if latency else None`, with exceptions caught and
turned into `None`.  Note the truthiness test: a measured latency of exactly
`0` is falsy in Python, so it becomes `none` as well. -/
def ping_target (raw : PingOutcome) : Option ℚ :=
  match raw with
  | PingOutcome.value v => if v ≠ 0 then some (v * 1000) else none
  | PingOutcome.timeout => none
  | PingOutcome.errored => none

/-- `ping_target` from `isp_monitor.py` (lines 149-156); textually the same
logic as the NetPulse one. -/
def isp_ping_target (raw : PingOutcome) : Option ℚ :=
  match raw with
  | PingOutcome.value v => if v ≠ 0 then some (v * 1000) else none
  | PingOutcome.timeout => none
  | PingOutcome.errored => none

/-- Health classification of one probe. -/
inductive HealthClass where
  | ok
  | highLatency
  | packetLoss
  deriving DecidableEq, Repr

/-- The branch structure of `monitor_target` (lines 352-397):
`if latency is None` -> packet loss; `elif latency > threshold` -> high
latency; `else` -> ok. -/
def classify (latency : Option ℚ) (threshold : ℚ) : HealthClass :=
  match latency with
  | none => HealthClass.packetLoss
  | some l => if l > threshold then HealthClass.highLatency else HealthClass.ok

/-- Classification used by `check_connectivity` in `isp_monitor.py`
(lines 481-560): `if latency:` (truthiness!) then threshold comparison,
else the packet-loss branch. -/
def isp_classify (latency : Option ℚ) (threshold : ℚ) : HealthClass :=
  match latency with
  | some l =>
      if l ≠ 0 then
        (if l > threshold then HealthClass.highLatency else HealthClass.ok)
      else HealthClass.packetLoss
  | none => HealthClass.packetLoss

/-- Target status strings used in `monitor_target`. -/
inductive TStatus where
  | unknown
  | up
  | down
  | degraded
  deriving DecidableEq, Repr

/-- The `status` string stored with each ping row:
`"PACKET_LOSS"`, `"HIGH_LATENCY_{l}ms"` or `"OK_{l}ms"`. -/
inductive StatusStr where
  | packetLoss
  | highLatency (l : ℚ)
  | ok (l : ℚ)
  deriving DecidableEq, Repr

/-- Incident `incident_type` column: `"PACKET_LOSS"` or `"HIGH_LATENCY"`. -/
inductive IncidentType where
  | packetLoss
  | highLatency
  deriving DecidableEq, Repr

/-- The email-cooldown key `f"{target_name}_{subject.split(':')[0]}"`.
The map lives inside one target's state, so the target-name part is fixed;
the subject prefixes the monitor ever uses are these three. -/
inductive AlertKey where
  | packetLoss
  | highLatency
  | recovered
  deriving DecidableEq, Repr

/-- Static configuration consumed by the monitoring loop. -/
structure Config where
  name : String
  ip : String
  latencyThreshold : ℚ
  cooldownSeconds : Int
  sendAlerts : Bool
  maxDataPoints : Nat
  deriving Repr

/-- Row of the `ping_results` table (`store_ping_result`, lines 249-261):
`packet_loss` is `1` iff `latency is None`. -/
structure PingRow where
  targetName : String
  targetIp : String
  timestamp : Int
  latency : Option ℚ
  statusStr : StatusStr
  packetLoss : Bool
  deriving DecidableEq, Repr

/-- Row of the `incidents` table (schema lines 178-192). -/
structure Incident where
  id : Nat
  targetName : String
  targetIp : String
  startTime : Int
  endTime : Option Int
  durationMinutes : Option ℚ
  incidentType : IncidentType
  maxLatency : Option ℚ
  packetLossCount : Nat
  resolved : Bool
  deriving DecidableEq, Repr

/-- Row of the `daily_reports` table (schema lines 194-210,
`UNIQUE(target_name, report_date)`). -/
structure ReportRow where
  targetName : String
  reportDate : Int
  totalChecks : Nat
  successfulChecks : Nat
  packetLossCount : Nat
  avgLatency : ℚ
  maxLatency : ℚ
  minLatency : ℚ
  uptimePercentage : ℚ
  incidentsCount : Nat
  deriving DecidableEq, Repr

/-- The SQLite database: the three tables plus the AUTOINCREMENT counter for
`incidents.id` (SQLite row ids start at 1). -/
structure DB where
  pings : List PingRow
  incidents : List Incident
  reports : List ReportRow
  nextIncidentId : Nat
  deriving DecidableEq, Repr

/-- `DATE(timestamp)` / `.date()` on an integer-seconds timestamp. -/
def dateOf (t : Int) : Int := t / 86400

/-- Data point appended to the deque `recent_data` (lines 425-431). -/
structure DataPoint where
  timestamp : Int
  latency : Option ℚ
  statusStr : StatusStr
  consecutiveFailures : Nat
  deriving DecidableEq, Repr

/-- Per-target mutable state, as initialized in `initialize_targets`
(lines 219-238) and mutated by `monitor_target`. -/
structure TargetState where
  consecutiveFailures : Nat
  totalChecks : Nat
  lastEmailSent : List (AlertKey × Int)
  firstFailureTime : Option Int
  currentIncidentId : Option Nat
  recentData : List DataPoint
  status : TStatus
  lastCheck : Option Int
  avgLatency : ℚ
  packetLossRate : ℚ
  deriving DecidableEq, Repr

/-- Initial per-target state (`initialize_targets`): zero counters, empty
maps, `status = 'unknown'`. -/
def initTargetState : TargetState :=
  { consecutiveFailures := 0
    totalChecks := 0
    lastEmailSent := []
    firstFailureTime := none
    currentIncidentId := none
    recentData := []
    status := TStatus.unknown
    lastCheck := none
    avgLatency := 0
    packetLossRate := 0 }

/-- Fresh database (`setup_database` creates empty tables; SQLite row ids
start from 1). -/
def initDB : DB :=
  { pings := [], incidents := [], reports := [], nextIncidentId := 1 }

/-- Lookup in a `last_email_sent` dict. -/
def lookupAlert {κ : Type} [DecidableEq κ] : List (κ × Int) → κ → Option Int
  | [], _ => none
  | (k, t) :: rest, key => if k = key then some t else lookupAlert rest key

/-- Assignment `last_email_sent[key] = now` in the dict. -/
def setAlert {κ : Type} [DecidableEq κ] : List (κ × Int) → κ → Int →
    List (κ × Int)
  | [], key, t => [(key, t)]
  | (k, t0) :: rest, key, t =>
      if k = key then (key, t) :: rest else (k, t0) :: setAlert rest key t

/-- `send_email_alert` from `netpulse_monitor.py` (lines 300-335).
Returns whether the Notifier (SMTP send) was invoked, and the updated
`last_email_sent` map.  `sendOk` is the outcome of the attempted send; on
an exception the map is left unchanged (the `except` branch only logs). -/
def send_email_alert (cfg : Config) (les : List (AlertKey × Int))
    (key : AlertKey) (now : Int) (sendOk : Bool) :
    Bool × List (AlertKey × Int) :=
  if cfg.sendAlerts = false then (false, les)
  else
    match lookupAlert les key with
    | some t =>
        if now - t < cfg.cooldownSeconds then (false, les)
        else if sendOk then (true, setAlert les key now) else (true, les)
    | none => if sendOk then (true, setAlert les key now) else (true, les)

/-- `start_incident` (lines 263-276): INSERT with `end_time`, `max_latency`
NULL, `packet_loss_count` 0, `resolved` 0; returns the fresh row id. -/
def start_incident (db : DB) (name ip : String) (itype : IncidentType)
    (now : Int) : Nat × DB :=
  (db.nextIncidentId,
   { db with
      incidents := db.incidents ++
        [{ id := db.nextIncidentId, targetName := name, targetIp := ip
           startTime := now, endTime := none, durationMinutes := none
           incidentType := itype, maxLatency := none, packetLossCount := 0
           resolved := false }]
      nextIncidentId := db.nextIncidentId + 1 })

/-- `end_incident` (lines 278-298): look up the row's `start_time`; if the
row exists, UPDATE it with `end_time`, `duration_minutes`,
`max_latency`, `packet_loss_count` and `resolved = 1`. -/
def end_incident (db : DB) (iid : Nat) (now : Int) (maxLat : Option ℚ)
    (plc : Nat) : DB :=
  match db.incidents.find? (fun i => i.id == iid) with
  | none => db
  | some _ =>
      { db with
          incidents := db.incidents.map (fun i =>
            if i.id = iid then
              { i with
                  endTime := some now
                  durationMinutes := some (((now : ℚ) - (i.startTime : ℚ)) / 60)
                  maxLatency := maxLat
                  packetLossCount := plc
                  resolved := true }
            else i) }

/-- Bounded append modelling `deque(maxlen = n).append`. -/
def appendBounded (n : Nat) (xs : List DataPoint) (x : DataPoint) :
    List DataPoint :=
  let ys := xs ++ [x]
  if n < ys.length then ys.drop (ys.length - n) else ys

/-- The tail of each `monitor_target` iteration (lines 421-439):
`store_ping_result`, append the data point to `recent_data`, refresh
`avg_latency` (only when some recent latency is non-None, line 435) and
`packet_loss_rate`. -/
def storeAndRefresh (cfg : Config) (now : Int) (latency : Option ℚ)
    (sstr : StatusStr) (st : TargetState) (db : DB) : TargetState × DB :=
  let db := { db with pings := db.pings ++
      [{ targetName := cfg.name, targetIp := cfg.ip, timestamp := now
         latency := latency, statusStr := sstr
         packetLoss := latency.isNone }] }
  let rd := appendBounded cfg.maxDataPoints st.recentData
      { timestamp := now, latency := latency, statusStr := sstr
        consecutiveFailures := st.consecutiveFailures }
  let lats := rd.filterMap (fun d => d.latency)
  let st := { st with
      recentData := rd
      avgLatency :=
        if lats.length ≠ 0 then lats.sum / (lats.length : ℚ) else st.avgLatency
      packetLossRate :=
        ((rd.filter (fun d => d.latency.isNone)).length : ℚ) /
          (rd.length : ℚ) * 100 }
  (st, db)

/-- One iteration of the `while` loop in `monitor_target` (lines 344-447),
given the time `now`, the Notifier outcome `sendOk` for the (at most one)
alert this iteration sends, and the raw ping outcome.  Follows the source:
bump `total_checks`/`last_check`, branch on the classification of
`ping_target`'s result, then store the ping row and refresh the window. -/
def monitorStep (cfg : Config) (now : Int) (sendOk : Bool) (raw : PingOutcome)
    (s : TargetState × DB) : TargetState × DB :=
  let st0 := s.1
  let db := s.2
  let latency := ping_target raw
  let st := { st0 with totalChecks := st0.totalChecks + 1, lastCheck := some now }
  match classify latency cfg.latencyThreshold with
  | HealthClass.packetLoss =>
      let p :=
        if st.consecutiveFailures = 0 then
          let r := start_incident db cfg.name cfg.ip IncidentType.packetLoss now
          ({ st with firstFailureTime := some now, currentIncidentId := some r.1 }, r.2)
        else (st, db)
      let st1 := { p.1 with consecutiveFailures := p.1.consecutiveFailures + 1
                            status := TStatus.down }
      let les := (send_email_alert cfg st1.lastEmailSent AlertKey.packetLoss now sendOk).2
      storeAndRefresh cfg now latency StatusStr.packetLoss
        { st1 with lastEmailSent := les } p.2
  | HealthClass.highLatency =>
      let p :=
        if st.consecutiveFailures = 0 then
          let r := start_incident db cfg.name cfg.ip IncidentType.highLatency now
          ({ st with firstFailureTime := some now, currentIncidentId := some r.1 }, r.2)
        else (st, db)
      let st1 := { p.1 with consecutiveFailures := p.1.consecutiveFailures + 1
                            status := TStatus.degraded }
      let les := (send_email_alert cfg st1.lastEmailSent AlertKey.highLatency now sendOk).2
      storeAndRefresh cfg now latency (StatusStr.highLatency (latency.getD 0))
        { st1 with lastEmailSent := les } p.2
  | HealthClass.ok =>
      if st.consecutiveFailures > 0 then
        -- recovery: end the current incident (note: `end_incident` is called
        -- with the Python defaults `max_latency=None, packet_loss_count=0`),
        -- send the recovery alert, reset the failure bookkeeping
        let db1 :=
          match st.currentIncidentId with
          | some iid => if iid ≠ 0 then end_incident db iid now none 0 else db
          | none => db
        let les := (send_email_alert cfg st.lastEmailSent AlertKey.recovered now sendOk).2
        let st1 := { st with lastEmailSent := les, consecutiveFailures := 0
                             firstFailureTime := none, currentIncidentId := none
                             status := TStatus.up }
        storeAndRefresh cfg now latency (StatusStr.ok (latency.getD 0)) st1 db1
      else
        storeAndRefresh cfg now latency (StatusStr.ok (latency.getD 0))
          { st with status := TStatus.up } db

/-- Probe event fed to the loop: (time, Notifier outcome, raw ping outcome). -/
abbrev ProbeEvent := Int × Bool × PingOutcome

/-- Run `monitor_target` over a finite list of probe events. -/
def runMonitor (cfg : Config) (probes : List ProbeEvent)
    (s : TargetState × DB) : TargetState × DB :=
  probes.foldl (fun s p => monitorStep cfg p.1 p.2.1 p.2.2 s) s

/-- Open (unresolved) incidents in the store. -/
def openIncidents (db : DB) : List Incident :=
  db.incidents.filter (fun i => !i.resolved)

@[simp] theorem storeAndRefresh_fst_consecutiveFailures (cfg : Config)
    (now : Int) (l : Option ℚ) (sstr : StatusStr) (st : TargetState) (db : DB) :
    (storeAndRefresh cfg now l sstr st db).1.consecutiveFailures
      = st.consecutiveFailures := rfl

@[simp] theorem storeAndRefresh_fst_currentIncidentId (cfg : Config)
    (now : Int) (l : Option ℚ) (sstr : StatusStr) (st : TargetState) (db : DB) :
    (storeAndRefresh cfg now l sstr st db).1.currentIncidentId
      = st.currentIncidentId := rfl

@[simp] theorem storeAndRefresh_fst_status (cfg : Config)
    (now : Int) (l : Option ℚ) (sstr : StatusStr) (st : TargetState) (db : DB) :
    (storeAndRefresh cfg now l sstr st db).1.status = st.status := rfl

@[simp] theorem storeAndRefresh_snd_incidents (cfg : Config)
    (now : Int) (l : Option ℚ) (sstr : StatusStr) (st : TargetState) (db : DB) :
    (storeAndRefresh cfg now l sstr st db).2.incidents = db.incidents := rfl

@[simp] theorem storeAndRefresh_snd_nextIncidentId (cfg : Config)
    (now : Int) (l : Option ℚ) (sstr : StatusStr) (st : TargetState) (db : DB) :
    (storeAndRefresh cfg now l sstr st db).2.nextIncidentId
      = db.nextIncidentId := rfl

/-- Well-formedness invariant relating a target's in-memory state to the
incidents table: ids are positive, below the AUTOINCREMENT counter and
pairwise distinct; when no incident id is held the failure counter is zero
and every stored incident is resolved; when one is held the counter is
positive and the held id names the unique unresolved incident. -/
def Inv (st : TargetState) (db : DB) : Prop :=
  1 ≤ db.nextIncidentId ∧
  (∀ i ∈ db.incidents, 1 ≤ i.id ∧ i.id < db.nextIncidentId) ∧
  db.incidents.Pairwise (fun a b => a.id ≠ b.id) ∧
  (match st.currentIncidentId with
   | none => st.consecutiveFailures = 0 ∧ ∀ i ∈ db.incidents, i.resolved = true
   | some iid =>
       st.consecutiveFailures ≠ 0 ∧ 1 ≤ iid ∧
       (∃ j ∈ db.incidents, j.id = iid ∧ j.resolved = false) ∧
       (∀ i ∈ db.incidents, i.resolved = false → i.id = iid))

theorem inv_init : Inv initTargetState initDB := by
  refine ⟨le_refl 1, ?_, ?_, ?_⟩ <;> simp [initTargetState, initDB]

theorem inv_monitorStep (cfg : Config) (now : Int) (sendOk : Bool)
    (raw : PingOutcome) (st : TargetState) (db : DB) (h : Inv st db) :
    Inv (monitorStep cfg now sendOk raw (st, db)).1
        (monitorStep cfg now sendOk raw (st, db)).2 := by
  obtain ⟨h1, h2, h3, h4⟩ := h
  simp only [monitorStep]
  cases hcl : classify (ping_target raw) cfg.latencyThreshold with
  | packetLoss =>
      by_cases hcf : st.consecutiveFailures = 0
      · have hid : st.currentIncidentId = none := by
          cases hii : st.currentIncidentId with
          | none => rfl
          | some iid => rw [hii] at h4; exact absurd hcf h4.1
        have hres : ∀ i ∈ db.incidents, i.resolved = true := by
          rw [hid] at h4; exact h4.2
        simp only [hcf, if_pos, start_incident, Inv,
          storeAndRefresh_fst_consecutiveFailures,
          storeAndRefresh_fst_currentIncidentId,
          storeAndRefresh_snd_incidents, storeAndRefresh_snd_nextIncidentId, ite_true]
        refine ⟨by omega, ?_, ?_, ?_⟩
        · intro i hi
          rcases List.mem_append.mp hi with hi | hi
          · have := h2 i hi; omega
          · simp only [List.mem_singleton] at hi
            subst hi; simp; omega
        · refine List.pairwise_append.mpr ⟨h3, List.pairwise_singleton _ _, ?_⟩
          intro a ha b hb
          simp only [List.mem_singleton] at hb
          subst hb
          have := h2 a ha
          simp; omega
        · refine ⟨by simp, by omega, ⟨?_, ?_⟩⟩
          · exact ⟨_, List.mem_append_right _ (List.mem_singleton_self _), rfl, rfl⟩
          · intro i hi hunres
            rcases List.mem_append.mp hi with hi | hi
            · exact absurd (hres i hi) (by simp [hunres])
            · simp only [List.mem_singleton] at hi; subst hi; rfl
      · have hii : ∃ iid, st.currentIncidentId = some iid := by
          cases hi0 : st.currentIncidentId with
          | none => rw [hi0] at h4; exact absurd h4.1 hcf
          | some iid => exact ⟨iid, rfl⟩
        obtain ⟨iid, hii⟩ := hii
        rw [hii] at h4
        simp only [hcf, if_neg, Inv, storeAndRefresh_fst_consecutiveFailures,
          storeAndRefresh_fst_currentIncidentId, storeAndRefresh_snd_incidents,
          storeAndRefresh_snd_nextIncidentId, ite_false, hii]
        exact ⟨h1, h2, h3, by simp, h4.2.1, h4.2.2.1, h4.2.2.2⟩
  | highLatency =>
      by_cases hcf : st.consecutiveFailures = 0
      · have hid : st.currentIncidentId = none := by
          cases hii : st.currentIncidentId with
          | none => rfl
          | some iid => rw [hii] at h4; exact absurd hcf h4.1
        have hres : ∀ i ∈ db.incidents, i.resolved = true := by
          rw [hid] at h4; exact h4.2
        simp only [hcf, if_pos, start_incident, Inv,
          storeAndRefresh_fst_consecutiveFailures,
          storeAndRefresh_fst_currentIncidentId,
          storeAndRefresh_snd_incidents, storeAndRefresh_snd_nextIncidentId, ite_true]
        refine ⟨by omega, ?_, ?_, ?_⟩
        · intro i hi
          rcases List.mem_append.mp hi with hi | hi
          · have := h2 i hi; omega
          · simp only [List.mem_singleton] at hi
            subst hi; simp; omega
        · refine List.pairwise_append.mpr ⟨h3, List.pairwise_singleton _ _, ?_⟩
          intro a ha b hb
          simp only [List.mem_singleton] at hb
          subst hb
          have := h2 a ha
          simp; omega
        · refine ⟨by simp, by omega, ⟨?_, ?_⟩⟩
          · exact ⟨_, List.mem_append_right _ (List.mem_singleton_self _), rfl, rfl⟩
          · intro i hi hunres
            rcases List.mem_append.mp hi with hi | hi
            · exact absurd (hres i hi) (by simp [hunres])
            · simp only [List.mem_singleton] at hi; subst hi; rfl
      · have hii : ∃ iid, st.currentIncidentId = some iid := by
          cases hi0 : st.currentIncidentId with
          | none => rw [hi0] at h4; exact absurd h4.1 hcf
          | some iid => exact ⟨iid, rfl⟩
        obtain ⟨iid, hii⟩ := hii
        rw [hii] at h4
        simp only [hcf, if_neg, Inv, storeAndRefresh_fst_consecutiveFailures,
          storeAndRefresh_fst_currentIncidentId, storeAndRefresh_snd_incidents,
          storeAndRefresh_snd_nextIncidentId, ite_false, hii]
        exact ⟨h1, h2, h3, by simp, h4.2.1, h4.2.2.1, h4.2.2.2⟩
  | ok =>
      by_cases hcf : st.consecutiveFailures = 0
      · have hid : st.currentIncidentId = none := by
          cases hii : st.currentIncidentId with
          | none => rfl
          | some iid => rw [hii] at h4; exact absurd hcf h4.1
        rw [hid] at h4
        simp only [hcf, Inv, gt_iff_lt, lt_self_iff_false, if_neg, ite_false,
          Nat.lt_irrefl, storeAndRefresh_fst_consecutiveFailures,
          storeAndRefresh_fst_currentIncidentId, storeAndRefresh_snd_incidents,
          storeAndRefresh_snd_nextIncidentId, hid]
        exact ⟨h1, h2, h3, by trivial, h4.2⟩
      · have hii : ∃ iid, st.currentIncidentId = some iid := by
          cases hi0 : st.currentIncidentId with
          | none => rw [hi0] at h4; exact absurd h4.1 hcf
          | some iid => exact ⟨iid, rfl⟩
        obtain ⟨iid, hii⟩ := hii
        rw [hii] at h4
        obtain ⟨-, hiid1, ⟨j, hj, hjid, hjun⟩, huniq⟩ := h4
        have hpos : 0 < st.consecutiveFailures := Nat.pos_of_ne_zero hcf
        simp only [hii, gt_iff_lt, hpos, if_pos, ite_true, Inv,
          storeAndRefresh_fst_consecutiveFailures,
          storeAndRefresh_fst_currentIncidentId, storeAndRefresh_snd_incidents,
          storeAndRefresh_snd_nextIncidentId]
        have hnz : iid ≠ 0 := by omega
        rw [if_pos hnz]
        simp only [end_incident]
        have hfind : db.incidents.find? (fun i => i.id == iid) ≠ none := by
          intro hnone
          have := List.find?_eq_none.mp hnone j hj
          simp [hjid] at this
        cases hf : db.incidents.find? (fun i => i.id == iid) with
        | none => exact absurd hf hfind
        | some jf =>
            simp only [hf]
            refine ⟨h1, ?_, ?_, ?_, ?_⟩
            · intro i hi
              rcases List.mem_map.mp hi with ⟨i0, hi0, hfi⟩
              subst hfi
              have hb := h2 i0 hi0
              by_cases hcase : i0.id = iid <;> simp [hcase] <;> omega
            · refine List.pairwise_map.mpr (h3.imp ?_)
              intro a b hab
              by_cases ha : a.id = iid <;> by_cases hb : b.id = iid <;>
                simp [ha, hb] <;> omega
            · trivial
            · intro i hi
              rcases List.mem_map.mp hi with ⟨i0, hi0, hfi⟩
              subst hfi
              by_cases hcase : i0.id = iid
              · simp [hcase]
              · simp only [hcase, if_neg, ite_false]
                by_contra hun
                simp only [Bool.not_eq_true] at hun
                exact hcase (huniq i0 hi0 hun)

theorem inv_runMonitor (cfg : Config) (probes : List ProbeEvent)
    (st : TargetState) (db : DB) (h : Inv st db) :
    Inv (runMonitor cfg probes (st, db)).1 (runMonitor cfg probes (st, db)).2 := by
  induction probes generalizing st db with
  | nil => simpa [runMonitor] using h
  | cons p rest ih =>
      have hstep := inv_monitorStep cfg p.1 p.2.1 p.2.2 st db h
      have hrw : runMonitor cfg (p :: rest) (st, db)
          = runMonitor cfg rest (monitorStep cfg p.1 p.2.1 p.2.2 (st, db)) := by
        simp [runMonitor]
      rw [hrw]
      have := ih (monitorStep cfg p.1 p.2.1 p.2.2 (st, db)).1
        (monitorStep cfg p.1 p.2.1 p.2.2 (st, db)).2 hstep
      simpa using this

theorem openIncidents_length_le_one (db : DB) (iid : Nat)
    (hpw : db.incidents.Pairwise fun a b => a.id ≠ b.id)
    (huniq : ∀ i ∈ db.incidents, i.resolved = false → i.id = iid) :
    (openIncidents db).length ≤ 1 := by
  have hsub : (openIncidents db).Sublist db.incidents := List.filter_sublist _
  have hpw2 := List.Pairwise.sublist hsub hpw
  match hoi : openIncidents db with
  | [] => simp
  | [_] => simp
  | x :: y :: t =>
      exfalso
      rw [hoi] at hpw2
      have hxy : x.id ≠ y.id := (List.pairwise_cons.mp hpw2).1 y (by simp)
      have hx : x ∈ openIncidents db := by rw [hoi]; simp
      have hy : y ∈ openIncidents db := by rw [hoi]; simp
      obtain ⟨hx1, hx2⟩ := List.mem_filter.mp hx
      obtain ⟨hy1, hy2⟩ := List.mem_filter.mp hy
      have hxr : x.resolved = false := by simpa using hx2
      have hyr : y.resolved = false := by simpa using hy2
      exact hxy ((huniq x hx1 hxr).trans (huniq y hy1 hyr).symm)

/-- A sample configuration matching the defaults of `load_config`:
threshold 150 ms, cooldown 300 s, alerts on. -/
def cfgA : Config :=
  { name := "A", ip := "10.0.0.1", latencyThreshold := 150
    cooldownSeconds := 300, sendAlerts := true, maxDataPoints := 1000 }

/-- Probe stream for the spec's streak scenario: 200 ms, 180 ms (both high
latency), a timeout (packet loss), then 90 ms (ok).  `ping3` reports
seconds, so 200 ms enters as `1/5`, etc. -/
def probesC1 : List ProbeEvent :=
  [(0, true, PingOutcome.value (1/5)),
   (2, true, PingOutcome.value (9/50)),
   (4, true, PingOutcome.timeout),
   (6, true, PingOutcome.value (9/100))]

/-- C1: evaluating `monitor_target` on the streak HighLatency(200),
HighLatency(180), PacketLoss, OK: exactly one incident row is created, its
type is HIGH_LATENCY (fixed despite the later packet loss) and it is closed
(resolved, `end_time` set) on the OK probe — but at close the row has
`packet_loss_count = 0` and `max_latency = NULL`, because `monitor_target`
calls `end_incident` with its Python default arguments and never accumulates
either quantity during the streak.  The claim's asserted values
(`packetLossCount = 1`, `maxLatencyObserved = 200`) do not hold on the code. -/
theorem streak_close_incident_evaluation :
    (runMonitor cfgA probesC1 (initTargetState, initDB)).2.incidents.map
        (fun i => (i.incidentType, i.resolved, i.endTime, i.maxLatency,
          i.packetLossCount))
      = [(IncidentType.highLatency, true, some 6, none, 0)] := by
  norm_num [runMonitor, monitorStep, ping_target, classify, initTargetState,
    initDB, cfgA, probesC1, start_incident, end_incident, send_email_alert,
    lookupAlert, setAlert, storeAndRefresh, appendBounded, List.find?]

/-- C2: after any sequence of probes processed for one target (the
EventStore always succeeds in this model), `consecutive_failures = 0` holds
iff no open (unresolved) incident row exists, and at most one open incident
exists at any time.  Every prefix of a stream is itself a stream, so this
covers the state after each processed probe. -/
theorem consecutiveFailures_zero_iff_no_open_incident (cfg : Config)
    (probes : List ProbeEvent) :
    ((runMonitor cfg probes (initTargetState, initDB)).1.consecutiveFailures = 0
        ↔ openIncidents (runMonitor cfg probes (initTargetState, initDB)).2 = []) ∧
      (openIncidents (runMonitor cfg probes (initTargetState, initDB)).2).length ≤ 1 := by
  obtain ⟨h1, h2, h3, h4⟩ := inv_runMonitor cfg probes _ _ inv_init
  cases hii : (runMonitor cfg probes (initTargetState, initDB)).1.currentIncidentId with
  | none =>
      rw [hii] at h4
      obtain ⟨hcf, hres⟩ := h4
      have hopen : openIncidents (runMonitor cfg probes (initTargetState, initDB)).2 = [] := by
        refine List.filter_eq_nil_iff.mpr ?_
        intro i hi
        simp [hres i hi]
      rw [hcf, hopen]
      simp
  | some iid =>
      rw [hii] at h4
      obtain ⟨hcf, hiid1, ⟨j, hj, hjid, hjun⟩, huniq⟩ := h4
      constructor
      · constructor
        · intro h0; exact absurd h0 hcf
        · intro hnil
          exfalso
          have : j ∈ openIncidents (runMonitor cfg probes (initTargetState, initDB)).2 :=
            List.mem_filter.mpr ⟨hj, by simp [hjun]⟩
          rw [hnil] at this
          exact List.not_mem_nil j this
      · exact openIncidents_length_le_one _ iid h3 huniq

/-- C3: probe classification is the deterministic function of the latency
and the threshold given by the branch structure of `monitor_target`: absent
latency is packet loss, latency strictly above the threshold is high
latency, any latency at or below the threshold — in particular exactly the
threshold — is ok. -/
theorem classification_deterministic (l th : ℚ) :
    classify none th = HealthClass.packetLoss ∧
    (th < l → classify (some l) th = HealthClass.highLatency) ∧
    (l ≤ th → classify (some l) th = HealthClass.ok) ∧
    classify (some th) th = HealthClass.ok := by
  refine ⟨rfl, fun h => ?_, fun h => ?_, ?_⟩
  · simp [classify, h]
  · simp [classify, not_lt.mpr h]
  · simp [classify]

/-- Witness for C3 at concrete inputs: 200 ms against a 150 ms threshold is
high latency, 100 ms is ok, and 150 ms exactly is ok. -/
theorem classification_deterministic_witness :
    classify (some 200) 150 = HealthClass.highLatency ∧
      classify (some 100) 150 = HealthClass.ok ∧
      classify (some 150) 150 = HealthClass.ok :=
  ⟨(classification_deterministic 200 150).2.1 (by norm_num),
   (classification_deterministic 100 150).2.2.1 (by norm_num),
   (classification_deterministic 150 150).2.2.2⟩

set_option maxHeartbeats 1600000 in
/-- C4 counterexample: starting from Up, a 200 ms high-latency probe puts
the target in Degraded, and the immediately following packet-loss probe of
the same streak (consecutive failures = 2) moves it to Down: the state is
not fixed by the failure kind that opened the streak. -/
theorem state_oscillates_within_streak_counterexample :
    (runMonitor cfgA [(0, true, PingOutcome.value (1/5))]
        (initTargetState, initDB)).1.status = TStatus.degraded ∧
    (runMonitor cfgA [(0, true, PingOutcome.value (1/5)), (2, true, PingOutcome.timeout)]
        (initTargetState, initDB)).1.status = TStatus.down ∧
    (runMonitor cfgA [(0, true, PingOutcome.value (1/5)), (2, true, PingOutcome.timeout)]
        (initTargetState, initDB)).1.consecutiveFailures = 2 := by
  refine ⟨?_, ?_, ?_⟩ <;>
    norm_num [runMonitor, monitorStep, ping_target, classify, initTargetState,
      initDB, cfgA, start_incident, end_incident, send_email_alert,
      lookupAlert, setAlert, storeAndRefresh, appendBounded]

/-- C4 amended: within a streak each failing probe sets the target state
from its own classification — every packet-loss probe sets Down and every
high-latency probe sets Degraded, regardless of which failure kind opened
the streak (only the incident's `type` is fixed at open). -/
theorem failure_state_follows_own_classification (cfg : Config) (now : Int)
    (sendOk : Bool) (raw : PingOutcome) (st : TargetState) (db : DB) :
    (classify (ping_target raw) cfg.latencyThreshold = HealthClass.packetLoss →
      (monitorStep cfg now sendOk raw (st, db)).1.status = TStatus.down) ∧
    (classify (ping_target raw) cfg.latencyThreshold = HealthClass.highLatency →
      (monitorStep cfg now sendOk raw (st, db)).1.status = TStatus.degraded) := by
  constructor <;> intro hcl <;> simp only [monitorStep, hcl] <;> simp

/-- Witness for C4 (amended) at a concrete input: a timeout probe sets the
state to Down. -/
theorem failure_state_follows_own_classification_witness :
    (monitorStep cfgA 0 true PingOutcome.timeout (initTargetState, initDB)).1.status
      = TStatus.down :=
  (failure_state_follows_own_classification cfgA 0 true PingOutcome.timeout
    initTargetState initDB).1 rfl

/-- C5 counterexample: in the initial state installed by
`initialize_targets`, before any probe, `consecutive_failures = 0` but the
status is `'unknown'`, not `'up'` — the claimed equivalence fails at the
initial observable point. -/
theorem initial_status_not_up_counterexample :
    ¬(initTargetState.status = TStatus.up ↔ initTargetState.consecutiveFailures = 0)
      ∧ initTargetState.consecutiveFailures = 0
      ∧ initTargetState.status = TStatus.unknown := by
  refine ⟨?_, rfl, rfl⟩
  intro h
  exact absurd (h.mpr rfl) (by simp [initTargetState])

/-- C5 amended: after every processed probe (though not in the initial
state, whose status is `'unknown'`), the target's status is Up iff its
consecutive-failure counter is zero. -/
theorem status_up_iff_no_failures_after_step (cfg : Config) (now : Int)
    (sendOk : Bool) (raw : PingOutcome) (st : TargetState) (db : DB) :
    (monitorStep cfg now sendOk raw (st, db)).1.status = TStatus.up
      ↔ (monitorStep cfg now sendOk raw (st, db)).1.consecutiveFailures = 0 := by
  simp only [monitorStep]
  cases hcl : classify (ping_target raw) cfg.latencyThreshold with
  | packetLoss => by_cases hcf : st.consecutiveFailures = 0 <;> simp [hcf]
  | highLatency => by_cases hcf : st.consecutiveFailures = 0 <;> simp [hcf]
  | ok =>
      by_cases hcf : st.consecutiveFailures > 0
      · simp [hcf]
      · have h0 : st.consecutiveFailures = 0 := by omega
        simp [hcf, h0]

theorem lookupAlert_setAlert {κ : Type} [DecidableEq κ]
    (les : List (κ × Int)) (key : κ)
    (t : Int) : lookupAlert (setAlert les key t) key = some t := by
  induction les with
  | nil => simp [setAlert, lookupAlert]
  | cons p rest ih =>
      obtain ⟨k0, t0⟩ := p
      by_cases h : k0 = key
      · simp [setAlert, lookupAlert, h]
      · simp [setAlert, lookupAlert, h, ih]

/-- Fold `send_email_alert` over a stream of (key, time, Notifier outcome)
events, collecting for each event whether the Notifier was invoked.  The
`last_email_sent` map is threaded through exactly as in the source. -/
def runAlerts (cfg : Config) : List (AlertKey × Int × Bool) →
    List (AlertKey × Int) → List Bool × List (AlertKey × Int)
  | [], les => ([], les)
  | e :: rest, les =>
      let r := send_email_alert cfg les e.1 e.2.1 e.2.2
      let rr := runAlerts cfg rest r.2
      (r.1 :: rr.1, rr.2)

/-- `send_email` from `isp_monitor.py` (lines 237-288): the cooldown check
consults only the general "ANY_ALERT" key, and a successful send records
`now` under both the subject-derived key and "ANY_ALERT".
`recipientsValid` models the recipient-parsing guard (an empty recipient
list returns without calling SMTP); `sendOk` is the SMTP outcome
(exceptions update nothing).  The Bool returned says whether the Notifier
(SMTP send) was invoked. -/
def isp_send_email (cooldown : Int) (sendEveryFailure : Bool)
    (les : List (String × Int)) (key : String) (now : Int)
    (recipientsValid sendOk : Bool) : Bool × List (String × Int) :=
  if sendEveryFailure = false then (false, les)
  else
    match lookupAlert les "ANY_ALERT" with
    | some t =>
        if now - t < cooldown then (false, les)
        else if recipientsValid = false then (false, les)
        else if sendOk then
          (true, setAlert (setAlert les key now) "ANY_ALERT" now)
        else (true, les)
    | none =>
        if recipientsValid = false then (false, les)
        else if sendOk then
          (true, setAlert (setAlert les key now) "ANY_ALERT" now)
        else (true, les)

/-- Fold `isp_send_email` (alerting enabled, valid recipients) over a
stream of (key, time, SMTP outcome) events. -/
def isp_runAlerts (cooldown : Int) : List (String × Int × Bool) →
    List (String × Int) → List Bool × List (String × Int)
  | [], les => ([], les)
  | e :: rest, les =>
      let r := isp_send_email cooldown true les e.1 e.2.1 true e.2.2
      let rr := isp_runAlerts cooldown rest r.2
      (r.1 :: rr.1, rr.2)

/-- C6: per (target, alertKey) — the `last_email_sent` map is stored inside
one target's state, so the key already carries the target — `send_email_alert`
suppresses (no Notifier call, state unchanged) whenever `now - lastSent <
cooldown_seconds`; otherwise it calls the Notifier, records `now` for the
key exactly when the send succeeds and leaves the map unchanged when it
fails.  Consequently two qualifying sends of the same key within the
cooldown make exactly one Notifier call and a third after the cooldown
elapses makes a second one; the last conjunct shows the same one-then-two
call pattern also holds for the legacy `isp_monitor.py` `send_email`, whose
cooldown additionally consults the global "ANY_ALERT" key. -/
theorem alert_cooldown_behavior (cfg : Config) (les : List (AlertKey × Int))
    (key : AlertKey) (now t : Int) (sendOk : Bool) :
    (lookupAlert les key = some t → now - t < cfg.cooldownSeconds →
      send_email_alert cfg les key now sendOk = (false, les)) ∧
    (cfg.sendAlerts = true → lookupAlert les key = some t →
      cfg.cooldownSeconds ≤ now - t →
      (send_email_alert cfg les key now sendOk).1 = true ∧
      (sendOk = true →
        lookupAlert (send_email_alert cfg les key now sendOk).2 key = some now) ∧
      (sendOk = false → (send_email_alert cfg les key now sendOk).2 = les)) ∧
    (cfg.sendAlerts = true → lookupAlert les key = none →
      (send_email_alert cfg les key now sendOk).1 = true ∧
      (sendOk = true →
        lookupAlert (send_email_alert cfg les key now sendOk).2 key = some now) ∧
      (sendOk = false → (send_email_alert cfg les key now sendOk).2 = les)) ∧
    (cfg.sendAlerts = true → lookupAlert les key = none →
      ∀ t1 t2 t3 : Int, t2 - t1 < cfg.cooldownSeconds →
        cfg.cooldownSeconds ≤ t3 - t1 →
        (runAlerts cfg [(key, t1, true), (key, t2, true), (key, t3, true)] les).1
          = [true, false, true]) ∧
    (∀ key2 : String, key2 ≠ "ANY_ALERT" → ∀ t1 t2 t3 : Int,
      t2 - t1 < cfg.cooldownSeconds → cfg.cooldownSeconds ≤ t3 - t1 →
      (isp_runAlerts cfg.cooldownSeconds
          [(key2, t1, true), (key2, t2, true), (key2, t3, true)] []).1
        = [true, false, true]) := by
  refine ⟨?_, ?_, ?_, ?_, ?_⟩
  · intro hl ht
    cases hsa : cfg.sendAlerts
    · simp [send_email_alert, hsa]
    · simp [send_email_alert, hsa, hl, ht]
  · intro hsa hl ht
    have hnl : ¬(now - t < cfg.cooldownSeconds) := not_lt.mpr ht
    cases sendOk <;>
      simp [send_email_alert, hsa, hl, hnl, lookupAlert_setAlert]
  · intro hsa hl
    cases sendOk <;>
      simp [send_email_alert, hsa, hl, lookupAlert_setAlert]
  · intro hsa hl t1 t2 t3 h12 h13
    have hnl : ¬(t3 - t1 < cfg.cooldownSeconds) := not_lt.mpr h13
    simp [runAlerts, send_email_alert, hsa, hl, lookupAlert_setAlert, h12, hnl]
  · intro key2 hkey t1 t2 t3 h12 h13
    have hnl : ¬(t3 - t1 < cfg.cooldownSeconds) := not_lt.mpr h13
    simp [isp_runAlerts, isp_send_email, lookupAlert, setAlert, hkey, h12, hnl]

/-- Witness for C6: with the 300 s cooldown of `cfgA`, a send 100 s after a
recorded one is suppressed with the map unchanged; and the scenario sends at
0 s, 100 s and 400 s from an empty map invoke the Notifier exactly on the
first and third events. -/
theorem alert_cooldown_behavior_witness :
    send_email_alert cfgA [(AlertKey.packetLoss, 0)] AlertKey.packetLoss 100 true
        = (false, [(AlertKey.packetLoss, 0)]) ∧
    (runAlerts cfgA [(AlertKey.packetLoss, (0 : Int), true),
        (AlertKey.packetLoss, (100 : Int), true),
        (AlertKey.packetLoss, (400 : Int), true)] []).1 = [true, false, true] ∧
    (isp_runAlerts 300 [("HIGH_LATENCY", (0 : Int), true),
        ("HIGH_LATENCY", (100 : Int), true),
        ("HIGH_LATENCY", (400 : Int), true)] []).1 = [true, false, true] :=
  ⟨(alert_cooldown_behavior cfgA [(AlertKey.packetLoss, 0)] AlertKey.packetLoss
      100 0 true).1 (by simp [lookupAlert]) (by decide),
   (alert_cooldown_behavior cfgA [] AlertKey.packetLoss 0 0 true).2.2.2.1 rfl rfl
      0 100 400 (by decide) (by decide),
   (alert_cooldown_behavior cfgA [] AlertKey.packetLoss 0 0 true).2.2.2.2
      "HIGH_LATENCY" (by decide) 0 100 400 (by decide) (by decide)⟩

/-- Rows of `ping_results` for one target and day: the WHERE clause
`target_name = ? AND DATE(timestamp) = ?` of the aggregation query. -/
def dayPings (pings : List PingRow) (t : String) (d : Int) : List PingRow :=
  pings.filter (fun r => r.targetName == t && dateOf r.timestamp == d)

/-- The SELECT of `generate_daily_reports` (lines 508-531) and the row it
inserts (lines 534-542): counts over the day's ping rows, average over the
non-null latencies (`avg_latency or 0` when NULL), max/min likewise
NULL-coalesced to 0, uptime percentage, and the day's incident count. -/
def computeReport (pings : List PingRow) (incidents : List Incident)
    (t : String) (d : Int) : ReportRow :=
  let rows := dayPings pings t d
  let lats := rows.filterMap (fun r => r.latency)
  { targetName := t
    reportDate := d
    totalChecks := rows.length
    successfulChecks := (rows.filter (fun r => r.latency.isSome)).length
    packetLossCount := (rows.filter (fun r => r.packetLoss)).length
    avgLatency := if lats.length = 0 then 0 else lats.sum / (lats.length : ℚ)
    maxLatency := (lats.max?).getD 0
    minLatency := (lats.min?).getD 0
    uptimePercentage :=
      if rows.length ≠ 0 then
        ((rows.filter (fun r => r.latency.isSome)).length : ℚ) /
          (rows.length : ℚ) * 100
      else 0
    incidentsCount :=
      (incidents.filter (fun i => i.targetName == t && dateOf i.startTime == d)).length }

/-- `INSERT OR REPLACE` keyed by `UNIQUE(target_name, report_date)`: the
conflicting row (if any) is deleted and the new row inserted. -/
def upsertReport (rs : List ReportRow) (r : ReportRow) : List ReportRow :=
  rs.filter (fun x => !(x.targetName == r.targetName && x.reportDate == r.reportDate))
    ++ [r]

/-- The per-target body of `generate_daily_reports`: aggregate the day's
rows and upsert the report, but only when `total_checks > 0` (line 522). -/
def reportStep (d : Int) (db : DB) (t : String) : DB :=
  if 0 < (dayPings db.pings t d).length then
    { db with reports := upsertReport db.reports (computeReport db.pings db.incidents t d) }
  else db

/-- `generate_daily_reports` over the configured target names for one
report date. -/
def generate_daily_reports (db : DB) (targets : List String) (d : Int) : DB :=
  targets.foldl (reportStep d) db

/-- Daily-report rows stored under one (targetName, reportDate) key. -/
def reportsFor (rs : List ReportRow) (t : String) (d : Int) : List ReportRow :=
  rs.filter (fun x => x.targetName == t && x.reportDate == d)

theorem filter_not_filter {α : Type} (p : α → Bool) (l : List α) :
    (l.filter (fun a => !p a)).filter p = [] :=
  List.filter_eq_nil_iff.mpr (fun a ha => by
    have h2 := (List.mem_filter.mp ha).2
    simp only [Bool.not_eq_true'] at h2
    simp [h2])

theorem filter_filter_of_imp {α : Type} (p q : α → Bool) (l : List α)
    (h : ∀ x, p x = true → q x = true) :
    (l.filter q).filter p = l.filter p := by
  induction l with
  | nil => rfl
  | cons a as ih =>
      by_cases hq : q a = true
      · by_cases hp : p a = true <;> simp [List.filter_cons, hq, hp, ih]
      · have hp : p a = false := by
          cases hpa : p a
          · rfl
          · exact absurd (h a hpa) hq
        simp [List.filter_cons, hq, hp, ih]

theorem reportsFor_upsert_self (rs : List ReportRow) (r : ReportRow) :
    reportsFor (upsertReport rs r) r.targetName r.reportDate = [r] := by
  unfold reportsFor upsertReport
  rw [List.filter_append, filter_not_filter]
  simp

theorem reportsFor_upsert_other (rs : List ReportRow) (r : ReportRow)
    (t : String) (d : Int) (h : ¬(r.targetName = t ∧ r.reportDate = d)) :
    reportsFor (upsertReport rs r) t d = reportsFor rs t d := by
  unfold reportsFor upsertReport
  rw [List.filter_append]
  have h2 : List.filter (fun x => x.targetName == t && x.reportDate == d) [r] = [] := by
    have hfalse : (r.targetName == t && r.reportDate == d) = false := by
      rw [Bool.and_eq_false_iff]
      by_cases hn : r.targetName = t
      · right; exact beq_eq_false_iff_ne.mpr (fun hd => h ⟨hn, hd⟩)
      · left; exact beq_eq_false_iff_ne.mpr hn
    simp [List.filter, hfalse]
  rw [h2, List.append_nil]
  apply filter_filter_of_imp
  intro x hx
  simp only [Bool.and_eq_true, beq_iff_eq] at hx
  simp only [Bool.not_eq_true', Bool.and_eq_false_iff]
  by_cases hn : x.targetName = r.targetName
  · right
    simp only [beq_eq_false_iff_ne, ne_eq]
    intro hd
    exact h ⟨hn ▸ hx.1.symm ▸ rfl, hd ▸ hx.2.symm ▸ rfl⟩
  · left
    simp [hn]

theorem reportStep_pings (d : Int) (db : DB) (t : String) :
    (reportStep d db t).pings = db.pings := by
  unfold reportStep; split <;> rfl

theorem reportStep_incidents (d : Int) (db : DB) (t : String) :
    (reportStep d db t).incidents = db.incidents := by
  unfold reportStep; split <;> rfl

theorem generate_pings (db : DB) (targets : List String) (d : Int) :
    (generate_daily_reports db targets d).pings = db.pings := by
  induction targets generalizing db with
  | nil => rfl
  | cons t rest ih =>
      show (generate_daily_reports (reportStep d db t) rest d).pings = db.pings
      rw [ih, reportStep_pings]

theorem generate_incidents (db : DB) (targets : List String) (d : Int) :
    (generate_daily_reports db targets d).incidents = db.incidents := by
  induction targets generalizing db with
  | nil => rfl
  | cons t rest ih =>
      show (generate_daily_reports (reportStep d db t) rest d).incidents = db.incidents
      rw [ih, reportStep_incidents]

theorem reportsFor_reportStep_self (db : DB) (t : String) (d : Int)
    (hne : 0 < (dayPings db.pings t d).length) :
    reportsFor (reportStep d db t).reports t d
      = [computeReport db.pings db.incidents t d] := by
  unfold reportStep
  rw [if_pos hne]
  exact reportsFor_upsert_self db.reports (computeReport db.pings db.incidents t d)

theorem reportsFor_reportStep_other (db : DB) (t' t : String) (d : Int)
    (h : t' ≠ t) :
    reportsFor (reportStep d db t').reports t d = reportsFor db.reports t d := by
  unfold reportStep
  split
  · exact reportsFor_upsert_other db.reports _ t d (fun hc => h hc.1)
  · rfl

theorem reportsFor_generate_not_mem (targets : List String) (d : Int)
    (db : DB) (t : String) (h : t ∉ targets) :
    reportsFor (generate_daily_reports db targets d).reports t d
      = reportsFor db.reports t d := by
  induction targets generalizing db with
  | nil => rfl
  | cons t' rest ih =>
      show reportsFor (generate_daily_reports (reportStep d db t') rest d).reports t d = _
      rw [ih _ (fun hm => h (List.mem_cons_of_mem _ hm)),
        reportsFor_reportStep_other db t' t d (fun he => h (he ▸ List.mem_cons_self _ _))]

theorem reportsFor_generate (targets : List String) (d : Int) (db : DB)
    (t : String) (ht : t ∈ targets)
    (hne : 0 < (dayPings db.pings t d).length) :
    reportsFor (generate_daily_reports db targets d).reports t d
      = [computeReport db.pings db.incidents t d] := by
  induction targets generalizing db with
  | nil => cases ht
  | cons t' rest ih =>
      show reportsFor (generate_daily_reports (reportStep d db t') rest d).reports t d = _
      by_cases hmem : t ∈ rest
      · rw [ih (reportStep d db t') hmem (by rw [reportStep_pings]; exact hne),
          reportStep_pings, reportStep_incidents]
      · have hte : t = t' := by
          rcases List.mem_cons.mp ht with h | h
          · exact h
          · exact absurd h hmem
        subst hte
        rw [reportsFor_generate_not_mem rest d _ t hmem,
          reportsFor_reportStep_self db t d hne]

/-- C7: the daily-report aggregation is idempotent.  For any database, any
target in the configured list with at least one ping row on the report
date, running `generate_daily_reports` twice with no new probe rows in
between leaves exactly one `daily_reports` row under the (targetName,
reportDate) key, identical to the row after the first run: the
`INSERT OR REPLACE` upsert overwrites instead of duplicating. -/
theorem daily_report_idempotent (db : DB) (targets : List String) (d : Int)
    (t : String) (ht : t ∈ targets)
    (hne : 0 < (dayPings db.pings t d).length) :
    (reportsFor (generate_daily_reports
          (generate_daily_reports db targets d) targets d).reports t d
        = reportsFor (generate_daily_reports db targets d).reports t d) ∧
      (reportsFor (generate_daily_reports db targets d).reports t d).length = 1 := by
  have h1 := reportsFor_generate targets d db t ht hne
  have h2 := reportsFor_generate targets d (generate_daily_reports db targets d) t ht
    (by rw [generate_pings]; exact hne)
  rw [generate_pings, generate_incidents] at h2
  rw [h1, h2]
  simp

/-- A one-row sample database: a single successful 50 ms ping for target
"A" at timestamp 100 (day 0). -/
def sampleDB : DB :=
  { pings := [{ targetName := "A"
                targetIp := "10.0.0.1"
                timestamp := 100
                latency := some 50
                statusStr := StatusStr.ok 50
                packetLoss := false }]
    incidents := []
    reports := []
    nextIncidentId := 1 }

/-- Witness for C7 on `sampleDB`: aggregating twice over the target list
["A"] for day 0. -/
theorem daily_report_idempotent_witness :
    (reportsFor (generate_daily_reports
          (generate_daily_reports sampleDB ["A"] 0) ["A"] 0).reports "A" 0
        = reportsFor (generate_daily_reports sampleDB ["A"] 0).reports "A" 0) ∧
      (reportsFor (generate_daily_reports sampleDB ["A"] 0).reports "A" 0).length = 1 :=
  daily_report_idempotent sampleDB ["A"] 0 "A" (by simp)
    (by simp [sampleDB, dayPings, dateOf])

/-- `cleanup_old_data` (lines 549-573): `retention_date = now -
timedelta(days=retention_days)`, then DELETE the ping results and incidents
with a timestamp/start time strictly before it, and the daily reports whose
`report_date` is strictly before its date. -/
def cleanup_old_data (db : DB) (now : Int) (retentionDays : Int) : DB :=
  let retention_date := now - retentionDays * 86400
  { db with
      pings := db.pings.filter (fun r => !(r.timestamp < retention_date))
      incidents := db.incidents.filter (fun i => !(i.startTime < retention_date))
      reports := db.reports.filter (fun r => !(r.reportDate < dateOf retention_date)) }

/-- C8: after the retention pruning with cutoff `now - retentionDays`, a
ping row remains exactly when it was present and dated at or after the
cutoff, and likewise for incidents (by start time) and daily reports (by
report date, against the cutoff's date); the surviving rows are the
original rows, unchanged and in their original order (sublists). -/
theorem cleanup_retention (db : DB) (now retentionDays : Int) (r : PingRow)
    (i : Incident) (p : ReportRow) :
    (r ∈ (cleanup_old_data db now retentionDays).pings ↔
      r ∈ db.pings ∧ now - retentionDays * 86400 ≤ r.timestamp) ∧
    (cleanup_old_data db now retentionDays).pings.Sublist db.pings ∧
    (i ∈ (cleanup_old_data db now retentionDays).incidents ↔
      i ∈ db.incidents ∧ now - retentionDays * 86400 ≤ i.startTime) ∧
    (cleanup_old_data db now retentionDays).incidents.Sublist db.incidents ∧
    (p ∈ (cleanup_old_data db now retentionDays).reports ↔
      p ∈ db.reports ∧ dateOf (now - retentionDays * 86400) ≤ p.reportDate) ∧
    (cleanup_old_data db now retentionDays).reports.Sublist db.reports := by
  refine ⟨?_, ?_, ?_, ?_, ?_, ?_⟩ <;>
    simp [cleanup_old_data, List.mem_filter, not_lt, List.filter_sublist]

/-- Result of pushing one snapshot to one subscriber: delivered, channel
closed (`websockets.exceptions.ConnectionClosed`), or some other error. -/
inductive PushResult where
  | ok
  | closed
  | error
  deriving DecidableEq, Repr

/-- The per-client loop of one `broadcast_data` cycle (lines 484-493): try
`client.send` for every client; a ConnectionClosed or any other exception
adds the client to `disconnected_clients` and the loop continues.  Returns
(clients the snapshot was delivered to, disconnected clients). -/
def broadcastLoop {σ δ : Type} (data : δ) (push : σ → δ → PushResult) :
    List σ → List σ × List σ
  | [] => ([], [])
  | c :: rest =>
      let r := broadcastLoop data push rest
      match push c data with
      | PushResult.ok => (c :: r.1, r.2)
      | PushResult.closed => (r.1, c :: r.2)
      | PushResult.error => (r.1, c :: r.2)

/-- One full broadcast cycle: deliver to every subscriber, then remove the
disconnected ones from the subscriber set (line 496,
`self.websocket_clients -= disconnected_clients`).  Returns (delivered
clients, surviving subscriber set). -/
def broadcast_cycle {σ δ : Type} [DecidableEq σ] (clients : List σ) (data : δ)
    (push : σ → δ → PushResult) : List σ × List σ :=
  let r := broadcastLoop data push clients
  (r.1, clients.filter (fun c => decide (c ∉ r.2)))

theorem broadcastLoop_mem {σ δ : Type} (data : δ) (push : σ → δ → PushResult)
    (clients : List σ) (c : σ) (hc : c ∈ clients) :
    (push c data = PushResult.ok → c ∈ (broadcastLoop data push clients).1) ∧
    (push c data ≠ PushResult.ok → c ∈ (broadcastLoop data push clients).2) := by
  induction clients with
  | nil => cases hc
  | cons a rest ih =>
      rcases List.mem_cons.mp hc with rfl | hmem
      · constructor <;> intro h
        · simp [broadcastLoop, h]
        · cases hp : push c data with
          | ok => exact absurd hp h
          | closed => simp [broadcastLoop, hp]
          | error => simp [broadcastLoop, hp]
      · constructor <;> intro h
        · have := (ih hmem).1 h
          cases hp : push a data <;> simp [broadcastLoop, hp, this]
        · have := (ih hmem).2 h
          cases hp : push a data <;> simp [broadcastLoop, hp, this]

/-- C9: in one broadcast cycle, every subscriber whose push fails or whose
channel is closed is removed from the subscriber set before the next cycle,
and its failure does not prevent delivery of the same snapshot to every
other subscriber whose push succeeds in the same cycle. -/
theorem subscriber_drop_policy {σ δ : Type} [DecidableEq σ]
    (clients : List σ) (data : δ) (push : σ → δ → PushResult) (c : σ)
    (hc : c ∈ clients) (hfail : push c data ≠ PushResult.ok) :
    c ∉ (broadcast_cycle clients data push).2 ∧
    ∀ c2 ∈ clients, push c2 data = PushResult.ok →
      c2 ∈ (broadcast_cycle clients data push).1 := by
  constructor
  · intro hmem
    have hdis := (broadcastLoop_mem data push clients c hc).2 hfail
    have := (List.mem_filter.mp hmem).2
    rw [decide_eq_true_eq] at this
    exact this hdis
  · intro c2 hc2 hok
    exact (broadcastLoop_mem data push clients c2 hc2).1 hok

/-- Witness for C9: subscribers 0, 1, 2 where subscriber 1's channel is
closed — 1 is dropped from the set and 0 and 2 still receive the
snapshot. -/
theorem subscriber_drop_policy_witness :
    (1 : Nat) ∉ (broadcast_cycle [0, 1, 2] ()
        (fun n _ => if n = 1 then PushResult.closed else PushResult.ok)).2 ∧
    ∀ c2 ∈ [0, 1, 2],
      (fun (n : Nat) (_ : Unit) =>
        if n = 1 then PushResult.closed else PushResult.ok) c2 () = PushResult.ok →
      c2 ∈ (broadcast_cycle [0, 1, 2] ()
        (fun n _ => if n = 1 then PushResult.closed else PushResult.ok)).1 :=
  subscriber_drop_policy [0, 1, 2] ()
    (fun n _ => if n = 1 then PushResult.closed else PushResult.ok) 1
    (by decide) (by decide)

/-- C10: a ping whose underlying measurement succeeds with a latency of
exactly 0 is turned into an absent latency by the truthiness test
`latency * 1000 if latency else None` in both implementations, is therefore
classified as packet loss by both (`monitor_target`'s branch and
`check_connectivity`'s `if latency:`), and is stored with the
`packet_loss` flag set. -/
theorem zero_latency_counts_as_packet_loss (th : ℚ) :
    ping_target (PingOutcome.value 0) = none ∧
    isp_ping_target (PingOutcome.value 0) = none ∧
    classify (ping_target (PingOutcome.value 0)) th = HealthClass.packetLoss ∧
    isp_classify (isp_ping_target (PingOutcome.value 0)) th = HealthClass.packetLoss ∧
    (ping_target (PingOutcome.value 0)).isNone = true ∧
    (monitorStep cfgA 0 true (PingOutcome.value 0)
        (initTargetState, initDB)).2.pings.map (fun r => (r.packetLoss, r.statusStr))
      = [(true, StatusStr.packetLoss)] := by
  refine ⟨by simp [ping_target], by simp [isp_ping_target],
    by simp [ping_target, classify], by simp [isp_ping_target, isp_classify],
    by simp [ping_target], ?_⟩
  norm_num [monitorStep, ping_target, classify, initTargetState, initDB, cfgA,
    start_incident, send_email_alert, lookupAlert, setAlert, storeAndRefresh,
    appendBounded]

end NetPulse
